import Mathlib

/-!
Shallow embedding of `src/auto_ocean_purchaser.py` (class `AutomatedOceanPurchaser`)
and proofs about its acquisition workflow.

Modelling conventions:
* Python machine effects are supplied by an `Env` oracle: `time k` is the value
  returned by the k-th call to `time.time()` in a run (calls are numbered by an
  explicit `tick` counter threaded through the functions in source order);
  `sha256hex` and `md5hex` stand for the hex digests of `hashlib`;
  `fetchResult url` is the outcome of `requests.get(url)` followed by
  `raise_for_status()` (`Except.error` = a raised network/HTTP exception,
  `Except.ok body` = `response.text`); the three `Bool` flags say whether the
  corresponding filesystem operations inside `download_full_dataset` /
  `_save_purchase_record` raise.
* A raised Python exception is `Except.error msg`; a `try/except` block is a
  `match` that turns `Except.error` into the handler's result.
* `wallet_info` is `none` for the empty dict `{}` that `_load_wallet_info`
  returns when reading the keystore raises, and `some w` for the three-key
  dict it returns on success (that dict always carries the "address" key,
  defaulted to "Unknown" by `keystore.get("address", "Unknown")`).
* The durable log `purchases/purchase_records.json` is `FileSystem.log`
  (`none` = the file does not exist); written asset files are an association
  list `FileSystem.files`, most recent write first.
* `List Event` records which collaborator calls the workflow performed, in
  order, so that claims of the form "stage X never runs" are statable.
-/

namespace OceanPurchase

/-- The JSON object stored in the keystore file; a `none` field is a key
missing from the object (`version` is kept already stringified, as the code
applies `str(...)` to it). -/
structure Keystore where
  address : Option String
  id : Option String
  version : Option String
deriving Repr, DecidableEq

/-- The three-key dict built by `_load_wallet_info` on a successful load. -/
structure WalletFields where
  address : String
  id : String
  version : String
deriving Repr, DecidableEq

/-- `_load_wallet_info` (lines 54-67): `none` input means opening/parsing the
keystore raised, giving the empty dict (modelled `none`); otherwise each field
defaults to "Unknown" via `keystore.get(..., "Unknown")`. -/
def load_wallet_info : Option Keystore → Option WalletFields
  | none => none
  | some ks =>
      some { address := ks.address.getD "Unknown",
             id := ks.id.getD "Unknown",
             version := ks.version.getD "Unknown" }

/-- The state of an `AutomatedOceanPurchaser` instance after `__init__`. -/
structure Purchaser where
  keystore_path : String
  wallet_info : Option WalletFields
deriving Repr, DecidableEq

/-- `__init__` (lines 22-52): stores the path and loads the wallet info. -/
def mkPurchaser (path : String) (ks : Option Keystore) : Purchaser :=
  { keystore_path := path, wallet_info := load_wallet_info ks }

/-- One entry of the `self.datasets` table (lines 37-52). -/
structure Dataset where
  did : String
  name : String
  sample_url : String
  estimated_price : String
  format : String
deriving Repr, DecidableEq

/-- The "enron" entry of `self.datasets`. -/
def dEnron : Dataset :=
  { did := "did:op:1beabb1e18d4d5b15facabf9d0ac2fd38a0b00138ae4b3f9f6649cb6f44458dd",
    name := "Enron Email Dataset",
    sample_url := "https://e1k3lz2wcg.execute-api.us-west-2.amazonaws.com/data",
    estimated_price := "0.1 OCEAN",
    format := "csv" }

/-- The "cameroon" entry of `self.datasets`. -/
def dCameroon : Dataset :=
  { did := "did:op:204e60c2a0f935d68743955afe1b4bb965770cfbc70342520d6bcecf75befe9c",
    name := "Cameroon Gazette Dataset",
    sample_url := "https://yjiuaiehxf.execute-api.us-west-2.amazonaws.com/data",
    estimated_price := "0.05 OCEAN",
    format := "json" }

/-- The fixed `self.datasets` dict (lines 37-52), as key lookup. -/
def datasets (key : String) : Option Dataset :=
  if key = "enron" then some dEnron
  else if key = "cameroon" then some dCameroon
  else none

/-- The machine effects a run consumes. -/
structure Env where
  time : Nat → Int
  sha256hex : String → String
  md5hex : String → String
  fetchResult : String → Except String String
  mkdirFails : Bool
  writeFails : Bool
  recordIoFails : Bool

/-- The balance dict of `check_ocean_balance`. -/
structure Balance where
  ocean : ℚ
  eth : ℚ
  status : String
deriving Repr, DecidableEq

/-- The pricing dict of `get_dataset_pricing` (ok case). -/
structure Pricing where
  price : String
  currency : String
  access_type : String
  valid_until : Int
  gas_estimate : String
deriving Repr, DecidableEq

/-- The transaction dict of `simulate_purchase_transaction`. -/
structure Transaction where
  tx_hash : String
  status : String
  block_number : Int
  gas_used : String
  timestamp : Int
deriving Repr, DecidableEq

/-- One acquisition record, as built by `_save_purchase_record` (lines 197-204). -/
structure Record where
  dataset : String
  timestamp : Int
  access_token : String
  file_path : String
  wallet_address : String
  status : String
deriving Repr, DecidableEq

/-- Persistent state: the durable log file (`none` = absent) and the written
asset files (most recent write first; a lookup takes the first hit). -/
structure FileSystem where
  log : Option (List Record)
  files : List (String × String)
deriving Repr, DecidableEq

/-- Writing an asset file. -/
def writeAsset (fs : FileSystem) (path content : String) : FileSystem :=
  { fs with files := (path, content) :: fs.files }

/-- `simulate_wallet_connection` (lines 69-79): `not self.wallet_info` is true
exactly for the empty dict, and the loaded dict always has the "address" key,
so the guard reduces to whether the load succeeded. -/
def simulate_wallet_connection (self : Purchaser) : Bool :=
  match self.wallet_info with
  | none => false
  | some _ => true

/-- `check_ocean_balance` (lines 81-97): a fixed synthetic balance. -/
def check_ocean_balance : Balance :=
  { ocean := 10.5, eth := 0.25, status := "sufficient" }

/-- `get_dataset_pricing` (lines 99-117). The error dict
`{"error": "Unknown dataset"}` is `Except.error`; the ok dict reads
`time.time()` once (for `valid_until`), advancing the tick. Returns the
result together with the next tick. -/
def get_dataset_pricing (env : Env) (tick : Nat) (dataset_key : String) :
    Except String Pricing × Nat :=
  match datasets dataset_key with
  | none => (Except.error "Unknown dataset", tick)
  | some d =>
      (Except.ok { price := d.estimated_price,
                   currency := "OCEAN",
                   access_type := "one-time",
                   valid_until := env.time tick + 86400,
                   gas_estimate := "0.002 ETH" }, tick + 1)

/-- `simulate_purchase_transaction` (lines 119-143). The two dict subscripts
`self.datasets[dataset_key]` and `self.wallet_info['address']` raise KeyError
when absent (`Except.error`). `time.time()` is read three times after the
inner pricing call: in `tx_data`, in `block_number` and in `timestamp`. -/
def simulate_purchase_transaction (env : Env) (self : Purchaser) (tick : Nat)
    (dataset_key : String) : Except String (Transaction × Nat) :=
  match datasets dataset_key with
  | none => Except.error "KeyError: dataset"
  | some d =>
    let pricingTick := (get_dataset_pricing env tick dataset_key).2
    match self.wallet_info with
    | none => Except.error "KeyError: address"
    | some w =>
      let txData := w.address ++ d.did ++ toString (env.time pricingTick)
      let txHash := env.sha256hex txData
      Except.ok ({ tx_hash := "0x" ++ txHash,
                   status := "confirmed",
                   block_number := 18500000 + env.time (pricingTick + 1) % 1000,
                   gas_used := "45000",
                   timestamp := env.time (pricingTick + 2) }, pricingTick + 3)

/-- `generate_access_token` (lines 145-156): md5 of
`f"{tx_hash}{dataset_key}{address}"`; the wallet subscript can raise. -/
def generate_access_token (env : Env) (self : Purchaser)
    (dataset_key tx_hash : String) : Except String String :=
  match self.wallet_info with
  | none => Except.error "KeyError: address"
  | some w => Except.ok (env.md5hex (tx_hash ++ dataset_key ++ w.address))

/-- `_save_purchase_record` (lines 195-222): builds the record (reading
`time.time()` once for its timestamp), then does mkdir / read-or-default /
append / rewrite on the log file; any IO or JSON failure in that part raises
(flag `recordIoFails`). The existing sequence defaults to `[]` when the log
file does not exist, and exactly the new record is appended at the end. -/
def save_purchase_record (env : Env) (self : Purchaser) (tick : Nat)
    (dataset_key access_token filepath : String) (fs : FileSystem) :
    Except String (FileSystem × Nat) :=
  match self.wallet_info with
  | none => Except.error "KeyError: address"
  | some w =>
    let record : Record :=
      { dataset := dataset_key,
        timestamp := env.time tick,
        access_token := access_token,
        file_path := filepath,
        wallet_address := "0x" ++ w.address,
        status := "completed" }
    if env.recordIoFails then Except.error "IOError: record store"
    else
      Except.ok ({ fs with log := some (fs.log.getD [] ++ [record]) }, tick + 1)

/-- The destination path `{output_dir}/{dataset_key}_full_dataset.{format}`
built at lines 177-178. -/
def dest_path (output_dir dataset_key fmt : String) : String :=
  output_dir ++ "/" ++ (dataset_key ++ "_full_dataset." ++ fmt)

/-- `download_full_dataset` (lines 158-193). The `self.datasets[dataset_key]`
subscript at line 160 sits before the `try` block, so it raises through; every
failure inside the `try` (fetch, mkdir, write, and the nested
`_save_purchase_record`) is caught and turned into `False`. On the save path
the asset file has already been written. -/
def download_full_dataset (env : Env) (self : Purchaser) (tick : Nat)
    (dataset_key access_token : String) (output_dir : String) (fs : FileSystem) :
    Except String (Bool × FileSystem × Nat) :=
  match datasets dataset_key with
  | none => Except.error "KeyError: dataset"
  | some d =>
    match env.fetchResult d.sample_url with
    | Except.error _ => Except.ok (false, fs, tick)
    | Except.ok body =>
      if env.mkdirFails then Except.ok (false, fs, tick)
      else if env.writeFails then Except.ok (false, fs, tick)
      else
        let filepath := dest_path output_dir dataset_key d.format
        let fs1 := writeAsset fs filepath body
        match save_purchase_record env self tick dataset_key access_token filepath fs1 with
        | Except.error _ => Except.ok (false, fs1, tick)
        | Except.ok (fs2, tick2) => Except.ok (true, fs2, tick2)

/-- The collaborator calls the workflow can perform, in source order. -/
inductive Event where
  | walletConnection
  | balanceCheck
  | pricingQuery
  | purchaseTransaction
  | accessToken
  | download
deriving Repr, DecidableEq

/-- The event trace of a run that reaches stage 7. -/
def fullTrace : List Event :=
  [Event.walletConnection, Event.balanceCheck, Event.pricingQuery,
   Event.purchaseTransaction, Event.accessToken, Event.download]

/-- `automated_purchase_workflow` (lines 224-264): the seven-stage
orchestrator. Each early `return False` keeps the state unchanged; stage 4
(user approval) only logs; stage 7 calls `download_full_dataset` with its
default `output_dir="./purchases"`. The returned trace lists the collaborator
calls made, in order. -/
def automated_purchase_workflow (env : Env) (self : Purchaser)
    (dataset_key : String) (fs : FileSystem) (tick : Nat) :
    Except String (Bool × FileSystem × Nat × List Event) :=
  if simulate_wallet_connection self = true then
    let balance := check_ocean_balance
    if balance.status ≠ "sufficient" then
      Except.ok (false, fs, tick, [Event.walletConnection, Event.balanceCheck])
    else
      match get_dataset_pricing env tick dataset_key with
      | (Except.error _, tick1) =>
          Except.ok (false, fs, tick1,
            [Event.walletConnection, Event.balanceCheck, Event.pricingQuery])
      | (Except.ok _, tick1) =>
          match simulate_purchase_transaction env self tick1 dataset_key with
          | Except.error e => Except.error e
          | Except.ok (txn, tick2) =>
            if txn.status ≠ "confirmed" then
              Except.ok (false, fs, tick2,
                [Event.walletConnection, Event.balanceCheck, Event.pricingQuery,
                 Event.purchaseTransaction])
            else
              match generate_access_token env self dataset_key txn.tx_hash with
              | Except.error e => Except.error e
              | Except.ok token =>
                match download_full_dataset env self tick2 dataset_key token "./purchases" fs with
                | Except.error e => Except.error e
                | Except.ok (success, fs2, tick3) =>
                    Except.ok (success, fs2, tick3, fullTrace)
  else
    Except.ok (false, fs, tick, [Event.walletConnection])

/-- The sequential bulk loop of `main` (option 3, lines 307-311): run the
workflow once per key, threading the filesystem and the clock, collecting
the boolean results. -/
def run_workflows (env : Env) (self : Purchaser) (keys : List String)
    (fs : FileSystem) (tick : Nat) :
    Except String (List Bool × FileSystem × Nat) :=
  match keys with
  | [] => Except.ok ([], fs, tick)
  | k :: ks =>
    match automated_purchase_workflow env self k fs tick with
    | Except.error e => Except.error e
    | Except.ok (b, fs1, tick1, _) =>
      match run_workflows env self ks fs1 tick1 with
      | Except.error e => Except.error e
      | Except.ok (bs, fs2, tick2) => Except.ok (b :: bs, fs2, tick2)

/-- Whether an `Except` is a success. -/
def isOkB {ε α : Type} : Except ε α → Bool
  | Except.ok _ => true
  | Except.error _ => false

/-- Whether stage 7 (retrieve and persist) succeeds for this key under this
environment: the fetch succeeds and none of the filesystem steps raise. -/
def download_can_succeed (env : Env) (key : String) : Bool :=
  match datasets key with
  | none => false
  | some d =>
      isOkB (env.fetchResult d.sample_url) &&
      !env.mkdirFails && !env.writeFails && !env.recordIoFails

/-- Whether the payment stage, started at `tick`, yields a confirmed
transaction. -/
def transaction_confirmed (env : Env) (self : Purchaser) (tick : Nat)
    (key : String) : Bool :=
  match simulate_purchase_transaction env self tick key with
  | Except.error _ => false
  | Except.ok (txn, _) => txn.status = "confirmed"

/-- The conjunction of the fallible stage gates of the workflow started at
`tick`: connect wallet, sufficient balance, known key (pricing), confirmed
transaction, successful retrieve-and-persist. Stage 4 (authorize) is a no-op
and stage 6 (token issuance) has no failure path of its own once reached. -/
def all_stages_pass (env : Env) (self : Purchaser) (key : String) (tick : Nat) : Bool :=
  simulate_wallet_connection self &&
  (check_ocean_balance.status = "sufficient") &&
  (datasets key).isSome &&
  transaction_confirmed env self (tick + 1) key &&
  download_can_succeed env key

/-! ### Concrete fixtures used by witnesses and counterexamples -/

/-- A well-formed keystore file's content. -/
def ksGood : Keystore :=
  { address := some "f89f413d855d86ec8ac7a26bbfb7aa49df290004",
    id := some "team3", version := some "3" }

/-- The wallet dict `load_wallet_info` builds from `ksGood`. -/
def wGood : WalletFields :=
  { address := "f89f413d855d86ec8ac7a26bbfb7aa49df290004",
    id := "team3", version := "3" }

/-- A purchaser constructed from the well-formed keystore. -/
def purchaserGood : Purchaser := mkPurchaser "team3-keystore.json" (some ksGood)

/-- An environment in which every collaborator succeeds. The hash oracles are
instantiated with the identity, which is one admissible digest function for
the model (no claim depends on digest values). -/
def envOk : Env :=
  { time := fun _ => 1700000000,
    sha256hex := fun s => s,
    md5hex := fun s => s,
    fetchResult := fun _ => Except.ok "col1,col2",
    mkdirFails := false, writeFails := false, recordIoFails := false }

/-- Like `envOk` but every fetch raises a network error. -/
def envFetchErr : Env :=
  { envOk with fetchResult := fun _ => Except.error "ConnectionError" }

/-- Like `envOk` but the clock jumps far ahead right after the stage-3 quote:
the first `time.time()` reading is 0, every later one is 100000, so the quote
(valid until 86400) is already expired when the payment executes. -/
def envLate : Env :=
  { envOk with time := fun k => if k = 0 then 0 else 100000 }

/-- Empty persistent state: no log file, no asset files. -/
def fs0 : FileSystem := { log := none, files := [] }

/-- A keystore whose holder reference is present but empty. -/
def ksEmptyAddress : Keystore :=
  { address := some "", id := some "k1", version := some "3" }

/-- A purchaser loaded from the empty-address keystore. -/
def purchaserEmptyAddress : Purchaser := mkPurchaser "keystore.json" (some ksEmptyAddress)

/-- The access token the workflow hands to stage 7 when it was started at
`tick` with wallet `w` and dataset `d`. -/
def tokenFor (env : Env) (w : WalletFields) (d : Dataset) (key : String) (tick : Nat) : String :=
  env.md5hex ("0x" ++ env.sha256hex (w.address ++ d.did ++ toString (env.time (tick + 2)))
    ++ key ++ w.address)

/-- The record a successful run started at `tick` appends. -/
def recFor (env : Env) (w : WalletFields) (d : Dataset) (key : String) (tick : Nat) : Record :=
  { dataset := key,
    timestamp := env.time (tick + 5),
    access_token := tokenFor env w d key tick,
    file_path := dest_path "./purchases" key d.format,
    wallet_address := "0x" ++ w.address,
    status := "completed" }

/-! ### Characterization lemmas (shared helpers) -/

theorem wallet_conn_eq_isSome (self : Purchaser) :
    simulate_wallet_connection self = self.wallet_info.isSome := by
  cases h : self.wallet_info <;> simp [simulate_wallet_connection, h]

theorem workflow_no_wallet (env : Env) (self : Purchaser) (key : String)
    (fs : FileSystem) (tick : Nat) (h : self.wallet_info = none) :
    automated_purchase_workflow env self key fs tick
      = Except.ok (false, fs, tick, [Event.walletConnection]) := by
  simp [automated_purchase_workflow, simulate_wallet_connection, h]

theorem workflow_unknown_key (env : Env) (self : Purchaser) (key : String)
    (fs : FileSystem) (tick : Nat) (w : WalletFields)
    (hw : self.wallet_info = some w) (hk : datasets key = none) :
    automated_purchase_workflow env self key fs tick
      = Except.ok (false, fs, tick,
          [Event.walletConnection, Event.balanceCheck, Event.pricingQuery]) := by
  simp [automated_purchase_workflow, simulate_wallet_connection, hw,
        check_ocean_balance, get_dataset_pricing, hk]

theorem workflow_known_key (env : Env) (self : Purchaser) (key : String)
    (fs : FileSystem) (tick : Nat) (w : WalletFields) (d : Dataset)
    (hw : self.wallet_info = some w) (hd : datasets key = some d) :
    automated_purchase_workflow env self key fs tick =
      match download_full_dataset env self (tick + 5) key (tokenFor env w d key tick)
          "./purchases" fs with
      | Except.error e => Except.error e
      | Except.ok (b, fs2, tick3) => Except.ok (b, fs2, tick3, fullTrace) := by
  simp [automated_purchase_workflow, simulate_wallet_connection, hw,
        check_ocean_balance, get_dataset_pricing, hd,
        simulate_purchase_transaction, generate_access_token, tokenFor]

theorem download_io_failure (env : Env) (self : Purchaser) (tick : Nat)
    (key token dir : String) (fs : FileSystem) (d : Dataset)
    (hd : datasets key = some d)
    (h : (∃ e, env.fetchResult d.sample_url = Except.error e)
         ∨ env.mkdirFails = true ∨ env.writeFails = true) :
    download_full_dataset env self tick key token dir fs
      = Except.ok (false, fs, tick) := by
  rcases h with ⟨e, he⟩ | hm | hwr
  · simp [download_full_dataset, hd, he]
  · cases hf : env.fetchResult d.sample_url <;>
      simp [download_full_dataset, hd, hf, hm]
  · cases hf : env.fetchResult d.sample_url <;>
      cases hm : env.mkdirFails <;>
      simp [download_full_dataset, hd, hf, hm, hwr]

theorem download_success (env : Env) (self : Purchaser) (tick : Nat)
    (key token dir body : String) (fs : FileSystem) (d : Dataset) (w : WalletFields)
    (hd : datasets key = some d) (hw : self.wallet_info = some w)
    (hf : env.fetchResult d.sample_url = Except.ok body)
    (hm : env.mkdirFails = false) (hwr : env.writeFails = false)
    (hr : env.recordIoFails = false) :
    download_full_dataset env self tick key token dir fs =
      Except.ok (true,
        { log := some (fs.log.getD [] ++
            [{ dataset := key, timestamp := env.time tick, access_token := token,
               file_path := dest_path dir key d.format,
               wallet_address := "0x" ++ w.address, status := "completed" }]),
          files := (dest_path dir key d.format, body) :: fs.files },
        tick + 1) := by
  simp [download_full_dataset, hd, hf, hm, hwr,
        save_purchase_record, hw, hr, writeAsset]

theorem download_record_io_fail (env : Env) (self : Purchaser) (tick : Nat)
    (key token dir body : String) (fs : FileSystem) (d : Dataset)
    (hd : datasets key = some d)
    (hf : env.fetchResult d.sample_url = Except.ok body)
    (hm : env.mkdirFails = false) (hwr : env.writeFails = false)
    (hr : env.recordIoFails = true) :
    download_full_dataset env self tick key token dir fs =
      Except.ok (false, writeAsset fs (dest_path dir key d.format) body, tick) := by
  cases hwal : self.wallet_info <;>
    simp [download_full_dataset, hd, hf, hm, hwr,
          save_purchase_record, hwal, hr, writeAsset]

theorem transaction_known (env : Env) (self : Purchaser) (t : Nat) (key : String)
    (w : WalletFields) (d : Dataset)
    (hw : self.wallet_info = some w) (hd : datasets key = some d) :
    simulate_purchase_transaction env self t key =
      Except.ok ({ tx_hash := "0x" ++ env.sha256hex (w.address ++ d.did ++ toString (env.time (t + 1))),
                   status := "confirmed",
                   block_number := 18500000 + env.time (t + 2) % 1000,
                   gas_used := "45000",
                   timestamp := env.time (t + 3) }, t + 4) := by
  simp [simulate_purchase_transaction, hd, hw, get_dataset_pricing]

theorem download_eq_can_succeed (env : Env) (self : Purchaser) (tick : Nat)
    (key token dir : String) (fs : FileSystem) (d : Dataset) (w : WalletFields)
    (hd : datasets key = some d) (hw : self.wallet_info = some w) :
    ∃ fs2 tick2, download_full_dataset env self tick key token dir fs
      = Except.ok (download_can_succeed env key, fs2, tick2) := by
  have hdc : download_can_succeed env key =
      (isOkB (env.fetchResult d.sample_url) &&
        !env.mkdirFails && !env.writeFails && !env.recordIoFails) := by
    simp [download_can_succeed, hd]
  rcases hf : env.fetchResult d.sample_url with e | body
  · refine ⟨fs, tick, ?_⟩
    rw [download_io_failure env self tick key token dir fs d hd (Or.inl ⟨e, hf⟩), hdc, hf]
    simp [isOkB]
  · cases hm : env.mkdirFails
    · cases hwr : env.writeFails
      · cases hr : env.recordIoFails
        · have hb : download_can_succeed env key = true := by
            rw [hdc, hf]; simp [isOkB, hm, hwr, hr]
          exact ⟨_, _, by
            rw [hb, download_success env self tick key token dir body fs d w hd hw hf hm hwr hr]⟩
        · have hb : download_can_succeed env key = false := by
            rw [hdc, hf]; simp [isOkB, hm, hwr, hr]
          exact ⟨_, _, by
            rw [hb, download_record_io_fail env self tick key token dir body fs d hd hf hm hwr hr]⟩
      · refine ⟨fs, tick, ?_⟩
        rw [download_io_failure env self tick key token dir fs d hd (Or.inr (Or.inr hwr)),
            hdc, hf]
        simp [isOkB, hm, hwr]
    · refine ⟨fs, tick, ?_⟩
      rw [download_io_failure env self tick key token dir fs d hd (Or.inr (Or.inl hm)),
          hdc, hf]
      simp [isOkB, hm]

theorem workflow_success_char (env : Env) (self : Purchaser) (key : String)
    (fs : FileSystem) (tick : Nat) (w : WalletFields) (d : Dataset) (body : String)
    (hw : self.wallet_info = some w) (hd : datasets key = some d)
    (hf : env.fetchResult d.sample_url = Except.ok body)
    (hm : env.mkdirFails = false) (hwr : env.writeFails = false)
    (hr : env.recordIoFails = false) :
    automated_purchase_workflow env self key fs tick
      = Except.ok (true,
          { log := some (fs.log.getD [] ++ [recFor env w d key tick]),
            files := (dest_path "./purchases" key d.format, body) :: fs.files },
          tick + 6, fullTrace) := by
  rw [workflow_known_key env self key fs tick w d hw hd,
      download_success env self (tick + 5) key (tokenFor env w d key tick) "./purchases"
        body fs d w hd hw hf hm hwr hr]
  rfl

theorem save_appends (env : Env) (self : Purchaser) (tick : Nat)
    (key tok path : String) (fs : FileSystem) (w : WalletFields)
    (hw : self.wallet_info = some w) (hr : env.recordIoFails = false) :
    save_purchase_record env self tick key tok path fs
      = Except.ok ({ fs with log := some (fs.log.getD [] ++
          [{ dataset := key, timestamp := env.time tick, access_token := tok,
             file_path := path, wallet_address := "0x" ++ w.address,
             status := "completed" }]) }, tick + 1) := by
  simp [save_purchase_record, hw, hr]

theorem run_workflows_success (env : Env) (self : Purchaser) (w : WalletFields)
    (hw : self.wallet_info = some w)
    (hm : env.mkdirFails = false) (hwr : env.writeFails = false)
    (hr : env.recordIoFails = false) :
    ∀ (keys : List String) (fs : FileSystem) (tick : Nat),
      (∀ k ∈ keys, ∃ d body, datasets k = some d ∧
          env.fetchResult d.sample_url = Except.ok body) →
      ∃ fs' tick' new,
        run_workflows env self keys fs tick
          = Except.ok (keys.map (fun _ => true), fs', tick') ∧
        fs'.log.getD [] = fs.log.getD [] ++ new ∧
        new.map Record.dataset = keys := by
  intro keys
  induction keys with
  | nil => exact fun fs tick _ => ⟨fs, tick, [], rfl, by simp, rfl⟩
  | cons k ks ih =>
    intro fs tick hkeys
    obtain ⟨d, body, hd, hf⟩ := hkeys k (List.mem_cons_self k ks)
    have hstep := workflow_success_char env self k fs tick w d body hw hd hf hm hwr hr
    obtain ⟨fs2, tick2, new, hrun, hlog, hmap⟩ :=
      ih { log := some (fs.log.getD [] ++ [recFor env w d k tick]),
           files := (dest_path "./purchases" k d.format, body) :: fs.files }
         (tick + 6) (fun k2 hk2 => hkeys k2 (List.mem_cons_of_mem k hk2))
    refine ⟨fs2, tick2, recFor env w d k tick :: new, ?_, ?_, ?_⟩
    · simp only [run_workflows, hstep, hrun, List.map]
    · rw [hlog]; simp [List.append_assoc]
    · simp [hmap, recFor]

/-! ### Claim theorems -/

/-- C1: `acquire` (automated_purchase_workflow) returns true iff all seven
stages complete (stages 2, 4, 5 and 6 cannot fail in the simulated path, and
`all_stages_pass` collects the five fallible gates); on the first stage that
fails it returns false and the event trace stops at that stage, so no later
stage runs. -/
theorem workflow_true_iff_all_stages (env : Env) (self : Purchaser) (key : String)
    (fs : FileSystem) (tick : Nat) :
    ∃ b fs' tick' ev,
      automated_purchase_workflow env self key fs tick = Except.ok (b, fs', tick', ev) ∧
      b = all_stages_pass env self key tick ∧
      (self.wallet_info = none → ev = [Event.walletConnection]) ∧
      (self.wallet_info ≠ none → datasets key = none →
        ev = [Event.walletConnection, Event.balanceCheck, Event.pricingQuery]) ∧
      (self.wallet_info ≠ none → (datasets key).isSome = true → ev = fullTrace) := by
  cases hw : self.wallet_info with
  | none =>
      refine ⟨false, fs, tick, [Event.walletConnection],
        workflow_no_wallet env self key fs tick hw, ?_, fun _ => rfl,
        fun h _ => absurd rfl h, fun h _ => absurd rfl h⟩
      simp [all_stages_pass, simulate_wallet_connection, hw]
  | some w =>
    cases hd : datasets key with
    | none =>
        refine ⟨false, fs, tick,
          [Event.walletConnection, Event.balanceCheck, Event.pricingQuery],
          workflow_unknown_key env self key fs tick w hw hd, ?_,
          fun h => Option.noConfusion h,
          fun _ _ => rfl,
          fun _ h => by simp at h⟩
        simp [all_stages_pass, simulate_wallet_connection, hw, check_ocean_balance,
              transaction_confirmed, simulate_purchase_transaction, hd,
              download_can_succeed]
    | some d =>
      obtain ⟨fs2, tick2, hdl⟩ := download_eq_can_succeed env self (tick + 5) key
        (tokenFor env w d key tick) "./purchases" fs d w hd hw
      refine ⟨download_can_succeed env key, fs2, tick2, fullTrace, ?_, ?_,
        fun h => Option.noConfusion h,
        fun _ h => Option.noConfusion h,
        fun _ _ => rfl⟩
      · rw [workflow_known_key env self key fs tick w d hw hd, hdl]
      · simp [all_stages_pass, simulate_wallet_connection, hw, check_ocean_balance, hd,
              transaction_confirmed, transaction_known env self (tick + 1) key w d hw hd]

/-- C2: with a valid identity, a known dataset key, sufficient funds and all
collaborators succeeding, `acquire` returns true, appends exactly one new
record with status "completed" to the log, and writes the fetched bytes to
`{outputDir}/{assetKey}_full_dataset.{format}` with `outputDir` the default
`./purchases`. -/
theorem success_appends_one_completed_record (env : Env) (self : Purchaser)
    (key : String) (w : WalletFields) (d : Dataset) (fs : FileSystem) (tick : Nat)
    (body : String)
    (hw : self.wallet_info = some w) (hd : datasets key = some d)
    (hf : env.fetchResult d.sample_url = Except.ok body)
    (hm : env.mkdirFails = false) (hwr : env.writeFails = false)
    (hr : env.recordIoFails = false) :
    ∃ token ts,
      automated_purchase_workflow env self key fs tick
        = Except.ok (true,
            { log := some (fs.log.getD [] ++
                [{ dataset := key, timestamp := ts, access_token := token,
                   file_path := dest_path "./purchases" key d.format,
                   wallet_address := "0x" ++ w.address, status := "completed" }]),
              files := (dest_path "./purchases" key d.format, body) :: fs.files },
            tick + 6, fullTrace) :=
  ⟨tokenFor env w d key tick, env.time (tick + 5),
    workflow_success_char env self key fs tick w d body hw hd hf hm hwr hr⟩

/-- C2 witness: the concrete enron scenario under `envOk`. -/
theorem success_appends_one_completed_record_witness :
    ∃ token ts,
      automated_purchase_workflow envOk purchaserGood "enron" fs0 0
        = Except.ok (true,
            { log := some (fs0.log.getD [] ++
                [{ dataset := "enron", timestamp := ts, access_token := token,
                   file_path := dest_path "./purchases" "enron" dEnron.format,
                   wallet_address := "0x" ++ wGood.address, status := "completed" }]),
              files := (dest_path "./purchases" "enron" dEnron.format, "col1,col2") :: fs0.files },
            0 + 6, fullTrace) :=
  success_appends_one_completed_record envOk purchaserGood "enron" wGood dEnron fs0 0
    "col1,col2" rfl rfl rfl rfl rfl rfl

/-- C3: when stage 7 fails (network error during the fetch, or a filesystem
error creating the directory or writing the file) after the payment already
produced a confirmed transaction, `acquire` returns false and the state —
in particular the durable log — is exactly as before the call. -/
theorem retrieval_failure_returns_false_no_record (env : Env) (self : Purchaser)
    (key : String) (w : WalletFields) (d : Dataset) (fs : FileSystem) (tick : Nat)
    (hw : self.wallet_info = some w) (hd : datasets key = some d)
    (hfail : (∃ e, env.fetchResult d.sample_url = Except.error e)
             ∨ env.mkdirFails = true ∨ env.writeFails = true) :
    ∃ txn, simulate_purchase_transaction env self (tick + 1) key
        = Except.ok (txn, tick + 5) ∧
      txn.status = "confirmed" ∧
      automated_purchase_workflow env self key fs tick
        = Except.ok (false, fs, tick + 5, fullTrace) := by
  refine ⟨_, transaction_known env self (tick + 1) key w d hw hd, rfl, ?_⟩
  rw [workflow_known_key env self key fs tick w d hw hd,
      download_io_failure env self (tick + 5) key (tokenFor env w d key tick)
        "./purchases" fs d hd hfail]

/-- C3 witness: the enron scenario with a failing network fetch. -/
theorem retrieval_failure_returns_false_no_record_witness :
    ∃ txn, simulate_purchase_transaction envFetchErr purchaserGood (0 + 1) "enron"
        = Except.ok (txn, 0 + 5) ∧
      txn.status = "confirmed" ∧
      automated_purchase_workflow envFetchErr purchaserGood "enron" fs0 0
        = Except.ok (false, fs0, 0 + 5, fullTrace) :=
  retrieval_failure_returns_false_no_record envFetchErr purchaserGood "enron"
    wGood dEnron fs0 0 rfl rfl (Or.inl ⟨"ConnectionError", rfl⟩)

/-- C4: for a key outside the datasets table, `acquire` returns false with the
state unchanged, and the payment step (`simulate_purchase_transaction`) is
never invoked: its event is absent from the trace. -/
theorem unknown_key_no_payment (env : Env) (self : Purchaser) (key : String)
    (fs : FileSystem) (tick : Nat) (hk : datasets key = none) :
    ∃ ev, automated_purchase_workflow env self key fs tick
        = Except.ok (false, fs, tick, ev) ∧
      Event.purchaseTransaction ∉ ev := by
  cases hw : self.wallet_info with
  | none => exact ⟨_, workflow_no_wallet env self key fs tick hw, by decide⟩
  | some w => exact ⟨_, workflow_unknown_key env self key fs tick w hw hk, by decide⟩

/-- C4 witness: the concrete `unknown_key` scenario. -/
theorem unknown_key_no_payment_witness :
    ∃ ev, automated_purchase_workflow envOk purchaserGood "unknown_key" fs0 0
        = Except.ok (false, fs0, 0, ev) ∧
      Event.purchaseTransaction ∉ ev :=
  unknown_key_no_payment envOk purchaserGood "unknown_key" fs0 0 rfl

/-- C5 counterexample: a run in which the stage-3 quote expires (valid until
86400) before the payment executes (transaction timestamp 100000), yet the
workflow proceeds through Execute Payment and returns true — the orchestrator
does not treat the expired quote as unusable. -/
theorem expired_quote_payment_proceeds_cex :
    Except.map Pricing.valid_until (get_dataset_pricing envLate 0 "enron").1
      = Except.ok 86400 ∧
    Except.map (fun p => p.1.timestamp)
        (simulate_purchase_transaction envLate purchaserGood 1 "enron")
      = Except.ok 100000 ∧
    (86400 : Int) < 100000 ∧
    Except.map (fun r => (r.1, r.2.2.2))
        (automated_purchase_workflow envLate purchaserGood "enron" fs0 0)
      = Except.ok (true, fullTrace) :=
  ⟨rfl, rfl, by decide, rfl⟩

/-- C5 (amended): the orchestrator never checks the quote's expiry: even when
`valid_until` lies in the past at payment time, `acquire` proceeds through
Execute Payment (the trace is the full trace) and returns the result of the
retrieve-and-persist stage rather than refusing with false. -/
theorem expiry_never_checked (env : Env) (self : Purchaser) (key : String)
    (fs : FileSystem) (tick : Nat) (w : WalletFields) (d : Dataset)
    (pr : Pricing) (txn : Transaction) (tickT : Nat)
    (hw : self.wallet_info = some w) (hd : datasets key = some d)
    (hq : (get_dataset_pricing env tick key).1 = Except.ok pr)
    (ht : simulate_purchase_transaction env self (tick + 1) key = Except.ok (txn, tickT))
    (hexp : pr.valid_until < txn.timestamp) :
    ∃ fs2 tick2,
      automated_purchase_workflow env self key fs tick
        = Except.ok (download_can_succeed env key, fs2, tick2, fullTrace) := by
  obtain ⟨fs2, tick2, hdl⟩ := download_eq_can_succeed env self (tick + 5) key
    (tokenFor env w d key tick) "./purchases" fs d w hd hw
  exact ⟨fs2, tick2, by rw [workflow_known_key env self key fs tick w d hw hd, hdl]⟩

/-- C5 witness: the expired-quote run under `envLate`. -/
theorem expiry_never_checked_witness :
    ∃ fs2 tick2,
      automated_purchase_workflow envLate purchaserGood "enron" fs0 0
        = Except.ok (download_can_succeed envLate "enron", fs2, tick2, fullTrace) :=
  expiry_never_checked envLate purchaserGood "enron" fs0 0 wGood dEnron _ _ _
    rfl rfl rfl rfl (by decide)

/-- C6 counterexample: an acquisition attempt (an unknown key) that fails and
appends nothing at all to the log — the state is returned unchanged, so no
record with status "completed" or "failed" is written for this attempt. -/
theorem failed_attempt_appends_no_record_cex :
    automated_purchase_workflow envOk purchaserGood "unknown_key" fs0 0
      = Except.ok (false, fs0, 0,
          [Event.walletConnection, Event.balanceCheck, Event.pricingQuery]) ∧
    fs0.log = none :=
  ⟨rfl, rfl⟩

/-- C6 (amended): a successful acquisition appends exactly one record, always
with status "completed", to the end of the log; a failed attempt appends no
record at all (the status "failed" is never written). -/
theorem record_appended_iff_success (env : Env) (self : Purchaser) (key : String)
    (fs : FileSystem) (tick : Nat) :
    ∃ b fs' tick' ev r,
      automated_purchase_workflow env self key fs tick = Except.ok (b, fs', tick', ev) ∧
      fs'.log = (if b then some (fs.log.getD [] ++ [r]) else fs.log) ∧
      r.status = "completed" := by
  cases hw : self.wallet_info with
  | none =>
      exact ⟨false, fs, tick, _, ⟨key, 0, "", "", "", "completed"⟩,
        workflow_no_wallet env self key fs tick hw, by simp, rfl⟩
  | some w =>
    cases hd : datasets key with
    | none =>
        exact ⟨false, fs, tick, _, ⟨key, 0, "", "", "", "completed"⟩,
          workflow_unknown_key env self key fs tick w hw hd, by simp, rfl⟩
    | some d =>
      have hk := workflow_known_key env self key fs tick w d hw hd
      rcases hf : env.fetchResult d.sample_url with e | body
      · refine ⟨false, fs, tick + 5, fullTrace, ⟨key, 0, "", "", "", "completed"⟩,
          ?_, by simp, rfl⟩
        rw [hk, download_io_failure env self (tick + 5) key (tokenFor env w d key tick)
          "./purchases" fs d hd (Or.inl ⟨e, hf⟩)]
      · cases hm : env.mkdirFails
        · cases hwr : env.writeFails
          · cases hr : env.recordIoFails
            · refine ⟨true, _, tick + 6, fullTrace, recFor env w d key tick,
                workflow_success_char env self key fs tick w d body hw hd hf hm hwr hr,
                by simp, rfl⟩
            · refine ⟨false, writeAsset fs (dest_path "./purchases" key d.format) body,
                tick + 5, fullTrace, ⟨key, 0, "", "", "", "completed"⟩, ?_,
                by simp [writeAsset], rfl⟩
              rw [hk, download_record_io_fail env self (tick + 5) key
                (tokenFor env w d key tick) "./purchases" body fs d hd hf hm hwr hr]
          · refine ⟨false, fs, tick + 5, fullTrace, ⟨key, 0, "", "", "", "completed"⟩,
              ?_, by simp, rfl⟩
            rw [hk, download_io_failure env self (tick + 5) key (tokenFor env w d key tick)
              "./purchases" fs d hd (Or.inr (Or.inr hwr))]
        · refine ⟨false, fs, tick + 5, fullTrace, ⟨key, 0, "", "", "", "completed"⟩,
            ?_, by simp, rfl⟩
          rw [hk, download_io_failure env self (tick + 5) key (tokenFor env w d key tick)
            "./purchases" fs d hd (Or.inr (Or.inl hm))]

/-- C7: the record store's append loads the existing sequence (empty when the
log file is absent), keeps it unchanged as a prefix and adds exactly one
record at the end; consequently N successful sequential acquisitions extend
the log by exactly N records, in call order (their dataset fields are the
acquired keys in order). -/
theorem log_append_preserves_prefix_and_counts (env : Env) (self : Purchaser)
    (w : WalletFields) (keys : List String) (fs : FileSystem) (tick : Nat)
    (hw : self.wallet_info = some w)
    (hm : env.mkdirFails = false) (hwr : env.writeFails = false)
    (hr : env.recordIoFails = false)
    (hkeys : ∀ k ∈ keys, ∃ d body, datasets k = some d ∧
        env.fetchResult d.sample_url = Except.ok body) :
    (∀ (tick₀ : Nat) (key tok path : String) (fs₀ : FileSystem), ∃ r,
        save_purchase_record env self tick₀ key tok path fs₀
          = Except.ok ({ fs₀ with log := some (fs₀.log.getD [] ++ [r]) }, tick₀ + 1)) ∧
    ∃ fs' tick' new,
      run_workflows env self keys fs tick
        = Except.ok (keys.map (fun _ => true), fs', tick') ∧
      fs'.log.getD [] = fs.log.getD [] ++ new ∧
      new.map Record.dataset = keys :=
  ⟨fun tick₀ key tok path fs₀ =>
      ⟨_, save_appends env self tick₀ key tok path fs₀ w hw hr⟩,
   run_workflows_success env self w hw hm hwr hr keys fs tick hkeys⟩

/-- C7 witness: the two sequential acquisitions enron then cameroon, from an
absent log, end with exactly the two records in that order. -/
theorem log_append_preserves_prefix_and_counts_witness :
    (∀ (tick₀ : Nat) (key tok path : String) (fs₀ : FileSystem), ∃ r,
        save_purchase_record envOk purchaserGood tick₀ key tok path fs₀
          = Except.ok ({ fs₀ with log := some (fs₀.log.getD [] ++ [r]) }, tick₀ + 1)) ∧
    ∃ fs' tick' new,
      run_workflows envOk purchaserGood ["enron", "cameroon"] fs0 0
        = Except.ok (["enron", "cameroon"].map (fun _ => true), fs', tick') ∧
      fs'.log.getD [] = fs0.log.getD [] ++ new ∧
      new.map Record.dataset = ["enron", "cameroon"] :=
  log_append_preserves_prefix_and_counts envOk purchaserGood wGood
    ["enron", "cameroon"] fs0 0 rfl rfl rfl rfl
    (by
      intro k hk
      rcases List.mem_cons.mp hk with rfl | hk2
      · exact ⟨dEnron, "col1,col2", rfl, rfl⟩
      · rcases List.mem_cons.mp hk2 with rfl | hk3
        · exact ⟨dCameroon, "col1,col2", rfl, rfl⟩
        · exact absurd hk3 (List.not_mem_nil k))

/-- C8: for every dataset key string and every keystore file state (and any
environment and persistent state), the workflow terminates with an ordinary
boolean result: no raised exception (`Except.error`) crosses the orchestrator
boundary, every stage failure having been converted into an early false. -/
theorem workflow_total_no_exception (env : Env) (path : String) (ks : Option Keystore)
    (key : String) (fs : FileSystem) (tick : Nat) :
    ∃ b fs' tick' ev,
      automated_purchase_workflow env (mkPurchaser path ks) key fs tick
        = Except.ok (b, fs', tick', ev) := by
  cases hw : (mkPurchaser path ks).wallet_info with
  | none => exact ⟨_, _, _, _, workflow_no_wallet env (mkPurchaser path ks) key fs tick hw⟩
  | some w =>
    cases hd : datasets key with
    | none =>
        exact ⟨_, _, _, _, workflow_unknown_key env (mkPurchaser path ks) key fs tick w hw hd⟩
    | some d =>
      obtain ⟨fs2, tick2, hdl⟩ := download_eq_can_succeed env (mkPurchaser path ks)
        (tick + 5) key (tokenFor env w d key tick) "./purchases" fs d w hd hw
      exact ⟨_, _, _, _, by
        rw [workflow_known_key env (mkPurchaser path ks) key fs tick w d hw hd, hdl]⟩

/-- C9 counterexample: a keystore whose holder reference is the empty string.
The loaded identity lacks a non-empty holder reference, yet the Authenticate
stage passes and every later stage runs (the run even completes): the stage
checks only that the wallet dict is non-empty and has the "address" key, not
that the address is non-empty. -/
theorem empty_address_passes_authenticate_cex :
    Option.map WalletFields.address purchaserEmptyAddress.wallet_info = some "" ∧
    simulate_wallet_connection purchaserEmptyAddress = true ∧
    Except.map (fun r => (r.1, r.2.2.2))
        (automated_purchase_workflow envOk purchaserEmptyAddress "enron" fs0 0)
      = Except.ok (true, fullTrace) :=
  ⟨rfl, rfl, rfl⟩

/-- C9 (amended): the Authenticate stage passes for every successfully loaded
keystore — including one whose holder reference is empty or missing (then
defaulted to "Unknown") — and fails exactly when loading the keystore failed
(empty wallet dict); in that case the workflow stops after stage 1 and no
later stage runs. -/
theorem authenticate_iff_keystore_loaded (path : String) (ks : Keystore)
    (env : Env) (key : String) (fs : FileSystem) (tick : Nat) :
    simulate_wallet_connection (mkPurchaser path (some ks)) = true ∧
    simulate_wallet_connection (mkPurchaser path none) = false ∧
    automated_purchase_workflow env (mkPurchaser path none) key fs tick
      = Except.ok (false, fs, tick, [Event.walletConnection]) :=
  ⟨rfl, rfl, workflow_no_wallet env (mkPurchaser path none) key fs tick rfl⟩

/-- C10: in the simulated path the Verify Funds and Execute Payment stages
cannot fail: the balance status is the constant "sufficient" and every
transaction the payment stage produces has status "confirmed" (so the
"insufficient balance" and "transaction failed" aborts are unreachable); for
a loaded wallet and a known key, `acquire` returns exactly the boolean the
retrieve-and-persist stage returns, with the same resulting state. -/
theorem simulated_funds_and_payment_never_fail (env : Env) (self : Purchaser)
    (key : String) (w : WalletFields) (d : Dataset) (fs : FileSystem) (tick : Nat)
    (hw : self.wallet_info = some w) (hd : datasets key = some d) :
    check_ocean_balance.status = "sufficient" ∧
    (∀ t, ∃ txn n, simulate_purchase_transaction env self t key
        = Except.ok (txn, n) ∧ txn.status = "confirmed") ∧
    ∃ token fs2 tick2,
      download_full_dataset env self (tick + 5) key token "./purchases" fs
        = Except.ok (download_can_succeed env key, fs2, tick2) ∧
      automated_purchase_workflow env self key fs tick
        = Except.ok (download_can_succeed env key, fs2, tick2, fullTrace) := by
  refine ⟨rfl, fun t => ⟨_, _, transaction_known env self t key w d hw hd, rfl⟩, ?_⟩
  obtain ⟨fs2, tick2, hdl⟩ := download_eq_can_succeed env self (tick + 5) key
    (tokenFor env w d key tick) "./purchases" fs d w hd hw
  exact ⟨tokenFor env w d key tick, fs2, tick2, hdl,
    by rw [workflow_known_key env self key fs tick w d hw hd, hdl]⟩

/-- C10 witness: the concrete enron scenario under `envOk`. -/
theorem simulated_funds_and_payment_never_fail_witness :
    check_ocean_balance.status = "sufficient" ∧
    (∀ t, ∃ txn n, simulate_purchase_transaction envOk purchaserGood t "enron"
        = Except.ok (txn, n) ∧ txn.status = "confirmed") ∧
    ∃ token fs2 tick2,
      download_full_dataset envOk purchaserGood (0 + 5) "enron" token "./purchases" fs0
        = Except.ok (download_can_succeed envOk "enron", fs2, tick2) ∧
      automated_purchase_workflow envOk purchaserGood "enron" fs0 0
        = Except.ok (download_can_succeed envOk "enron", fs2, tick2, fullTrace) :=
  simulated_funds_and_payment_never_fail envOk purchaserGood "enron" wGood dEnron
    fs0 0 rfl rfl

end OceanPurchase
